import Mathlib

/-!
Shallow embedding of the `dia` web-framework core (crate `dia-core`) and
verification of its specification.

The embedding translates, from the Rust source:
  * `src/dia-core/src/response.rs` — the `Response` builder and `ResponseBody`;
  * `src/dia-core/src/request.rs` — the `Request` value type;
  * `src/dia-core/src/controller.rs` — `Route`, `BasicController`,
    `BasicController::register_routes`;
  * `src/dia-core/src/middleware.rs` — `CorsMiddleware`, `AuthMiddleware`;
  * `src/dia-core/src/application.rs` — `Application` and the per-request
    dispatch installed by `Application::run`;
  * `src/dia-core/src/ffi.rs` — the C-ABI boundary functions.

Rust `HashMap<String, String>` maps are modelled as association lists with
unique keys and a last-write-wins `insert`; `serde_json::Value` is modelled
by the inductive `Json` (numbers abstracted to `Int`, which no theorem here
inspects); Rust futures are dropped: every hook and handler is embedded as
the pure function the source's async block computes.
-/

namespace Dia

/-- Model of `serde_json::Value` (numbers abstracted; no claim inspects them). -/
inductive Json where
  | null : Json
  | bool (b : Bool) : Json
  | num (n : Int) : Json
  | str (s : String) : Json
  | arr (xs : List Json) : Json
  | obj (fields : List (String × Json)) : Json

/-- Model of Rust `str::starts_with`: character-wise prefix test.
(`String.startsWith` of Lean core does not reduce in the kernel, so the
equivalent character-list prefix check is used.) -/
def starts_with (s p : String) : Bool :=
  p.data.isPrefixOf s.data

/-- A `HashMap<String, String>` observed through `get`/`insert`. -/
abbrev Headers := List (String × String)

/-- `HashMap::insert`: the new binding replaces any previous binding of `k`. -/
def hmInsert (m : Headers) (k v : String) : Headers :=
  (k, v) :: m.filter (fun p => !(p.1 == k))

/-- `HashMap::get`. -/
def hmGet (m : Headers) (k : String) : Option String :=
  (m.find? (fun p => p.1 == k)).map (fun p => p.2)

/-- `ResponseBody` from `response.rs`. -/
inductive ResponseBody where
  | text (s : String) : ResponseBody
  | json (v : Json) : ResponseBody
  | binary (data : List Nat) : ResponseBody
  | empty : ResponseBody

/-- `Response` from `response.rs`: status code, headers, body.
The `actix_web::http::StatusCode` field is modelled as the `Nat` it wraps. -/
structure Response where
  status : Nat
  headers : Headers
  body : ResponseBody

namespace Response

/-- `Response::new()`: 200 OK, no headers, empty body. -/
def new : Response :=
  { status := 200, headers := [], body := .empty }

/-- `Response::status(self, status: u16)` (named `setStatus` here because the
field is already called `status`).  `StatusCode::from_u16` succeeds exactly on
`100 ≤ s < 1000`; on failure the previous status is kept. -/
def setStatus (r : Response) (s : Nat) : Response :=
  if 100 ≤ s ∧ s < 1000 then { r with status := s } else r

/-- `Response::header(self, key, value)`. -/
def header (r : Response) (key value : String) : Response :=
  { r with headers := hmInsert r.headers key value }

/-- `Response::text(self, text)`: sets the body and the `content-type` header. -/
def text (r : Response) (t : String) : Response :=
  { r with body := .text t,
           headers := hmInsert r.headers "content-type" "text/plain; charset=utf-8" }

/-- `Response::json(self, data)`.  The `T: Serialize` argument is modelled by
the outcome of `serde_json::to_value(data)`: `some v` when serialization
succeeds with value `v`, `none` when it fails.  The failure branch falls back
to a fixed 500 text response; no error reaches the caller. -/
def json (r : Response) (data : Option Json) : Response :=
  match data with
  | some value =>
      { r with body := .json value,
               headers := hmInsert r.headers "content-type" "application/json" }
  | none =>
      { status := 500,
        body := .text "Failed to serialize JSON",
        headers := hmInsert r.headers "content-type" "text/plain; charset=utf-8" }

/-- `Response::html(self, html)`. -/
def html (r : Response) (h : String) : Response :=
  { r with body := .text h,
           headers := hmInsert r.headers "content-type" "text/html; charset=utf-8" }

/-- `Response::not_found()`. -/
def not_found : Response :=
  (new.setStatus 404).text "Not Found"

/-- `Response::internal_error()`. -/
def internal_error : Response :=
  (new.setStatus 500).text "Internal Server Error"

/-- `Response::bad_request(message)`. -/
def bad_request (message : String) : Response :=
  (new.setStatus 400).text message

/-- `Response::unauthorized(message)`. -/
def unauthorized (message : String) : Response :=
  (new.setStatus 401).text message

/-- `Response::forbidden(message)`. -/
def forbidden (message : String) : Response :=
  (new.setStatus 403).text message

end Response

/-- `Request` from `request.rs`.  (`Request::new` converts from an
actix-web request, an external type; requests are built directly here.) -/
structure Request where
  method : String
  path : String
  headers : Headers
  body : Option Json
  path_params : Headers
  query_params : Headers
  remote_ip : Option String

namespace Request

/-- `Request::header(name)`. -/
def header (r : Request) (name : String) : Option String :=
  hmGet r.headers name

end Request

/-- `HandlerFn` from `controller.rs`: the pure function computed by the
async handler (the future layer is dropped by the embedding). -/
abbrev HandlerFn := Request → Response → Response

/-- `Route` from `controller.rs`. -/
structure Route where
  method : String
  path : String
  handler : HandlerFn

namespace Route

/-- `Route::get(path, handler)`. -/
def get (path : String) (handler : HandlerFn) : Route :=
  { method := "GET", path := path, handler := handler }

/-- `Route::post(path, handler)`. -/
def post (path : String) (handler : HandlerFn) : Route :=
  { method := "POST", path := path, handler := handler }

/-- `Route::put(path, handler)`. -/
def put (path : String) (handler : HandlerFn) : Route :=
  { method := "PUT", path := path, handler := handler }

/-- `Route::delete(path, handler)`. -/
def delete (path : String) (handler : HandlerFn) : Route :=
  { method := "DELETE", path := path, handler := handler }

/-- `Route::patch(path, handler)`. -/
def patch (path : String) (handler : HandlerFn) : Route :=
  { method := "PATCH", path := path, handler := handler }

end Route

/-- The actix-web dispatch method chosen by `register_routes`
(`web::get()`, `web::post()`, ...). -/
inductive ActixMethod where
  | get | post | put | delete | patch
deriving DecidableEq

/-- One route entry recorded into the actix `ServiceConfig` by
`config.route(path, method().to(handler))`.  The wrapped actix handler
builds a fresh `Response::new()` template and runs the stored handler. -/
structure RouteEntry where
  path : String
  method : ActixMethod
  handler : HandlerFn

/-- `web::ServiceConfig`, observed as the ordered list of registered routes. -/
abbrev ServiceConfig := List RouteEntry

/-- `BasicController` from `controller.rs`. -/
structure BasicController where
  routes : List Route
  base_path : Option String

namespace BasicController

/-- `BasicController::new()`. -/
def new : BasicController :=
  { routes := [], base_path := none }

/-- `BasicController::base_path(self, path)` (named `with_base_path` here
because the field is already called `base_path`). -/
def with_base_path (c : BasicController) (path : String) : BasicController :=
  { c with base_path := some path }

/-- `BasicController::route(self, route)`. -/
def route (c : BasicController) (r : Route) : BasicController :=
  { c with routes := c.routes ++ [r] }

/-- `BasicController::get(self, path, handler)`. -/
def get (c : BasicController) (path : String) (handler : HandlerFn) : BasicController :=
  c.route (Route.get path handler)

/-- `BasicController::post(self, path, handler)`. -/
def post (c : BasicController) (path : String) (handler : HandlerFn) : BasicController :=
  c.route (Route.post path handler)

end BasicController

/-- The per-route body of the loop in `BasicController::register_routes`:
computes `full_path` from the optional base path, then matches on the
method string (`match route.method.as_str()`, a sequential comparison
against the five literals, embedded as the equivalent `if` chain);
an unrecognized method only logs a warning and registers nothing. -/
def registerRoute (base_path : Option String) (config : ServiceConfig)
    (route : Route) : ServiceConfig :=
  let full_path := match base_path with
    | some base => base ++ route.path
    | none => route.path
  if route.method = "GET" then
    config ++ [{ path := full_path, method := .get, handler := route.handler }]
  else if route.method = "POST" then
    config ++ [{ path := full_path, method := .post, handler := route.handler }]
  else if route.method = "PUT" then
    config ++ [{ path := full_path, method := .put, handler := route.handler }]
  else if route.method = "DELETE" then
    config ++ [{ path := full_path, method := .delete, handler := route.handler }]
  else if route.method = "PATCH" then
    config ++ [{ path := full_path, method := .patch, handler := route.handler }]
  else
    config

/-- `BasicController::register_routes(&self, config)`: registers every
route of the controller, in order, into the service configuration. -/
def BasicController.register_routes (c : BasicController)
    (config : ServiceConfig) : ServiceConfig :=
  c.routes.foldl (registerRoute c.base_path) config

/-- `CorsMiddleware` from `middleware.rs`. -/
structure CorsMiddleware where
  allowed_origins : List String
  allowed_methods : List String
  allowed_headers : List String
  allow_credentials : Bool

namespace CorsMiddleware

/-- `CorsMiddleware::new()`. -/
def new : CorsMiddleware :=
  { allowed_origins := ["*"],
    allowed_methods := ["GET", "POST", "PUT", "DELETE"],
    allowed_headers := ["*"],
    allow_credentials := false }

/-- `CorsMiddleware::allow_credentials(self, allow)` (named
`with_allow_credentials` here because the field has the source name). -/
def with_allow_credentials (m : CorsMiddleware) (allow : Bool) : CorsMiddleware :=
  { m with allow_credentials := allow }

/-- `<CorsMiddleware as Middleware>::after_request`: injects the three
`Access-Control-Allow-*` headers (each value list joined with ", "), and
the `Access-Control-Allow-Credentials: true` header when enabled. -/
def after_request (m : CorsMiddleware) (_req : Request) (resp : Response) : Response :=
  let allowed_origins := String.intercalate ", " m.allowed_origins
  let allowed_methods := String.intercalate ", " m.allowed_methods
  let allowed_headers := String.intercalate ", " m.allowed_headers
  let resp :=
    ((resp.header "Access-Control-Allow-Origin" allowed_origins).header
        "Access-Control-Allow-Methods" allowed_methods).header
      "Access-Control-Allow-Headers" allowed_headers
  if m.allow_credentials then
    resp.header "Access-Control-Allow-Credentials" "true"
  else
    resp

end CorsMiddleware

/-- `AuthMiddleware` from `middleware.rs`. -/
structure AuthMiddleware where
  public_paths : List String
  secret_key : String

namespace AuthMiddleware

/-- `AuthMiddleware::new(secret_key)`. -/
def new (secret_key : String) : AuthMiddleware :=
  { public_paths := ["/health", "/"], secret_key := secret_key }

/-- `AuthMiddleware::public_paths(self, paths)` (named `with_public_paths`
here because the field has the source name). -/
def with_public_paths (m : AuthMiddleware) (paths : List String) : AuthMiddleware :=
  { m with public_paths := paths }

/-- `AuthMiddleware::is_public_path(&self, path)`: prefix match against the
allow-list. -/
def is_public_path (m : AuthMiddleware) (path : String) : Bool :=
  m.public_paths.any (fun p => starts_with path p)

/-- `<AuthMiddleware as Middleware>::before_request`: public paths pass;
otherwise an `authorization` header with a `Bearer ` prefix passes (no
token validation); otherwise a 401 "Authentication required" response
short-circuits. -/
def before_request (m : AuthMiddleware) (req : Request) : Option Response :=
  let path := req.path
  let is_public := m.is_public_path path
  let auth_header := req.header "authorization"
  if is_public then
    none
  else
    match auth_header with
    | some h =>
        if starts_with h "Bearer " then none
        else some (Response.unauthorized "Authentication required")
    | none => some (Response.unauthorized "Authentication required")

end AuthMiddleware

/-- The `Middleware` trait object (`Box<dyn Middleware>`), observed through
its two hooks and its name. -/
structure MiddlewareHooks where
  before_request : Request → Option Response
  after_request : Request → Response → Response
  name : String

/-- A `dyn Controller` trait object, observed through its one capability,
`register_routes`. -/
abbrev ControllerObj := ServiceConfig → ServiceConfig

/-- `Application` from `application.rs`. -/
structure Application where
  host : String
  port : Nat
  controllers : List ControllerObj
  middlewares : List MiddlewareHooks
  state : List (String × String)

namespace Application

/-- `Application::new()`. -/
def new : Application :=
  { host := "127.0.0.1", port := 8080,
    controllers := [], middlewares := [], state := [] }

/-- `Application::controller(self, controller)`. -/
def controller (app : Application) (c : ControllerObj) : Application :=
  { app with controllers := app.controllers ++ [c] }

/-- `Application::middleware(self, middleware)`. -/
def middleware (app : Application) (m : MiddlewareHooks) : Application :=
  { app with middlewares := app.middlewares ++ [m] }

/-- The route table built by the `HttpServer::new` closure in
`Application::run`: each controller's `register_routes` is applied, in
registration order, to the service configuration.  The closure moves in
`self.controllers` only; `self.middlewares` is dropped (the "Apply
middlewares" step is a TODO in the source). -/
def buildRoutes (app : Application) : ServiceConfig :=
  app.controllers.foldl (fun cfg c => c cfg) []

/-- Per-request dispatch of the server set up by `Application::run`:
the engine routes the request to the matching registered entry, whose
wrapped handler runs on the request and a fresh `Response::new()`
template; no registered middleware hook is consulted anywhere on this
path.  `none` models the engine's default when no route matches. -/
def handleRequest (app : Application) (req : Request) : Option Response :=
  match (buildRoutes app).find?
      (fun e => e.path == req.path &&
        (match e.method with
          | .get => req.method == "GET"
          | .post => req.method == "POST"
          | .put => req.method == "PUT"
          | .delete => req.method == "DELETE"
          | .patch => req.method == "PATCH")) with
  | some e => some (e.handler req Response.new)
  | none => none

end Application

/-! FFI boundary (`ffi.rs`).

A `*mut T` pointer argument is modelled as `Option T`: `none` is the null
pointer, `some x` a live allocation holding `x`.  A `*const c_char` string
argument is modelled by `CStrArg`: null, non-null but not valid UTF-8
(`CStr::to_str` fails), or non-null valid UTF-8.  `c_int` results are `Int`. -/

/-- A C string argument crossing the boundary. -/
inductive CStrArg where
  | null : CStrArg
  | invalid : CStrArg
  | valid (s : String) : CStrArg

/-- `DiaHandlerFn`: `extern "C" fn() -> *mut DiaResponse`. -/
abbrev DiaHandlerFn := Unit → Option Response

/-- `dia_application_host`: -1 on null application or null host pointer,
-1 when the host bytes are not valid UTF-8, else 0 (the setter body is a
TODO; nothing is written). -/
def dia_application_host (app : Option Application) (host : CStrArg) : Int :=
  match app, host with
  | none, _ => -1
  | some _, .null => -1
  | some _, .invalid => -1
  | some _, .valid _ => 0

/-- `dia_application_port`: -1 on null application, else 0 (setter body is
a TODO). -/
def dia_application_port (app : Option Application) (_port : Nat) : Int :=
  match app with
  | none => -1
  | some _ => 0

/-- `dia_application_run`: -1 on null application; otherwise the handle is
consumed and the server is driven.  `runtimeOk` models
`tokio::runtime::Runtime::new()` succeeding and `serverOk` models
`app.run()` returning `Ok` — both external effects. -/
def dia_application_run (app : Option Application)
    (runtimeOk serverOk : Bool) : Int :=
  match app with
  | none => -1
  | some _ => if runtimeOk then (if serverOk then 0 else -1) else -1

/-- `dia_application_free`: drops the boxed application only when the
pointer is non-null; the result is the allocation state after the call
(null input: nothing to reclaim, the call is a no-op). -/
def dia_application_free (app : Option Application) : Option Application :=
  match app with
  | some _ => none
  | none => none

/-- `dia_response_text`: -1 on null response or null text pointer, -1 when
the text bytes are not valid UTF-8, else 0 (setter body is a TODO). -/
def dia_response_text (resp : Option Response) (text : CStrArg) : Int :=
  match resp, text with
  | none, _ => -1
  | some _, .null => -1
  | some _, .invalid => -1
  | some _, .valid _ => 0

/-- `dia_response_json`: -1 on null response or null JSON pointer, -1 when
the JSON bytes are not valid UTF-8, else 0 (setter body is a TODO). -/
def dia_response_json (resp : Option Response) (json_str : CStrArg) : Int :=
  match resp, json_str with
  | none, _ => -1
  | some _, .null => -1
  | some _, .invalid => -1
  | some _, .valid _ => 0

/-- `dia_response_status`: -1 on null response, else 0 (setter body is a
TODO). -/
def dia_response_status (resp : Option Response) (_status : Nat) : Int :=
  match resp with
  | none => -1
  | some _ => 0

/-- `dia_response_free`: drops the boxed response only when the pointer is
non-null; null input is a no-op. -/
def dia_response_free (resp : Option Response) : Option Response :=
  match resp with
  | some _ => none
  | none => none

/-- `dia_application_get`: -1 on null application or null path pointer,
else 0.  The path bytes are never decoded (no `CStr::to_str` call) and the
handler is never inspected; route registration is a TODO. -/
def dia_application_get (app : Option Application) (path : CStrArg)
    (_handler : DiaHandlerFn) : Int :=
  match app, path with
  | none, _ => -1
  | some _, .null => -1
  | some _, _ => 0

/-! Header-map lemmas. -/

/-- After `insert k v`, `get k` sees `v`. -/
theorem hmGet_hmInsert_self (m : Headers) (k v : String) :
    hmGet (hmInsert m k v) k = some v := by
  simp [hmGet, hmInsert, List.find?_cons]

/-- `find?` for a key other than `k` is unaffected by filtering out `k`. -/
theorem find?_filter_out_key (m : Headers) (k k' : String) (h : k' ≠ k) :
    (m.filter (fun p => !(p.1 == k))).find? (fun p => p.1 == k') =
      m.find? (fun p => p.1 == k') := by
  induction m with
  | nil => rfl
  | cons a t ih =>
    have hkk' : ¬ (k = k') := fun hh => h hh.symm
    by_cases hak : a.1 = k
    · have hak' : ¬ a.1 = k' := fun hh => h (hh ▸ hak ▸ rfl)
      simp [List.filter_cons, hak, List.find?_cons, hak', hkk', ih]
    · by_cases hk' : a.1 = k'
      · simp [List.filter_cons, hak, List.find?_cons, hk', h]
      · simp [List.filter_cons, hak, List.find?_cons, hk', ih]

/-- After `insert k v`, `get` at any other key is unchanged. -/
theorem hmGet_hmInsert_ne (m : Headers) (k v k' : String) (h : k' ≠ k) :
    hmGet (hmInsert m k v) k' = hmGet m k' := by
  have hne : ¬ (k = k') := fun hh => h hh.symm
  simp [hmGet, hmInsert, List.find?_cons, hne, find?_filter_out_key m k k' h]

/-! Claim theorems. -/

/-- Claim C1: for every `Response` `r` and every input on which JSON
serialization fails, `r.json(v)` returns a response with status 500 and
body `Text("Failed to serialize JSON")`; the function is total, so no
error is propagated to the caller. -/
theorem json_failure_yields_500_text (r : Response) :
    (r.json none).status = 500 ∧
    (r.json none).body = ResponseBody.text "Failed to serialize JSON" :=
  ⟨rfl, rfl⟩

/-- Claim C3: `text` sets the `content-type` header to
`text/plain; charset=utf-8` and a successful `json` sets it to
`application/json`; the header set by the body call stays in the result,
and a later `header` call in the chain can overwrite it. -/
theorem body_setters_set_content_type (r : Response) (s : String) (v : Json)
    (w : String) :
    hmGet (r.text s).headers "content-type" = some "text/plain; charset=utf-8" ∧
    hmGet (r.json (some v)).headers "content-type" = some "application/json" ∧
    hmGet ((r.text s).header "content-type" w).headers "content-type" = some w ∧
    hmGet ((r.json (some v)).header "content-type" w).headers "content-type" = some w := by
  refine ⟨?_, ?_, ?_, ?_⟩ <;>
    simp [Response.text, Response.json, Response.header, hmGet_hmInsert_self]

/-- Claim C10: a successful `json` call changes only the body and the
`content-type` header; the status and every other header of `r` are
preserved. -/
theorem json_success_frame (r : Response) (v : Json) :
    (r.json (some v)).status = r.status ∧
    (r.json (some v)).body = ResponseBody.json v ∧
    hmGet (r.json (some v)).headers "content-type" = some "application/json" ∧
    (∀ k, k ≠ "content-type" →
      hmGet (r.json (some v)).headers k = hmGet r.headers k) := by
  refine ⟨rfl, rfl, ?_, ?_⟩
  · simp [Response.json, hmGet_hmInsert_self]
  · intro k hk
    simp [Response.json, hmGet_hmInsert_ne _ _ _ _ hk]

/-- Witness for C10: a previously set status and an unrelated header
survive a successful `json` call on a concrete response. -/
theorem json_success_frame_witness :
    hmGet (((Response.new.setStatus 201).header "x-request-id" "7").json
        (some Json.null)).headers "x-request-id" =
      hmGet ((Response.new.setStatus 201).header "x-request-id" "7").headers
        "x-request-id" :=
  (json_success_frame ((Response.new.setStatus 201).header "x-request-id" "7")
    Json.null).2.2.2 "x-request-id" (by decide)

/-- Counterexample for C7: the claim's validity domain is the byte-width
(or word-width) unsigned integer domain, which contains 50; the code
leaves `status(50)` unapplied, keeping 200, because
`StatusCode::from_u16` rejects everything below 100. -/
theorem setStatus_byte_domain_cex :
    (Response.new.setStatus 50).status = 200 ∧
    (Response.new.setStatus 50).status ≠ 50 := by
  exact ⟨rfl, by decide⟩

/-- Claim C7 (amended): `status(s)` applies `s` exactly when
`100 ≤ s ≤ 999` (the domain accepted by `StatusCode::from_u16`), changing
only the status field; any other `s` is silently ignored and the response
is returned unchanged. -/
theorem setStatus_spec (r : Response) (s : Nat) :
    (100 ≤ s ∧ s < 1000 → r.setStatus s = { r with status := s }) ∧
    (¬ (100 ≤ s ∧ s < 1000) → r.setStatus s = r) := by
  constructor <;> intro h <;> simp [Response.setStatus, h]

/-- Witness for C7: 404 is applied, 50 is ignored. -/
theorem setStatus_spec_witness :
    Response.new.setStatus 404 = { Response.new with status := 404 } ∧
    Response.new.setStatus 50 = Response.new :=
  ⟨(setStatus_spec Response.new 404).1 (by decide),
   (setStatus_spec Response.new 50).2 (by decide)⟩

/-- Claim C4: a request to a public-prefixed path passes without any
authorization check; a non-public request with an `authorization` header
starting with `Bearer ` passes with no further token validation; a
non-public request with no such header, or a non-Bearer one, is
short-circuited with a 401 `Text("Authentication required")` response. -/
theorem auth_before_request_spec (m : AuthMiddleware) (req : Request) :
    (m.is_public_path req.path = true → m.before_request req = none) ∧
    (m.is_public_path req.path = false →
      ∀ h, req.header "authorization" = some h → starts_with h "Bearer " = true →
        m.before_request req = none) ∧
    (m.is_public_path req.path = false → req.header "authorization" = none →
      m.before_request req = some (Response.unauthorized "Authentication required")) ∧
    (m.is_public_path req.path = false →
      ∀ h, req.header "authorization" = some h → starts_with h "Bearer " = false →
        m.before_request req = some (Response.unauthorized "Authentication required")) := by
  refine ⟨?_, ?_, ?_, ?_⟩
  · intro hp
    simp [AuthMiddleware.before_request, hp]
  · intro hp h hh hb
    simp [AuthMiddleware.before_request, hp, hh, hb]
  · intro hp hh
    simp [AuthMiddleware.before_request, hp, hh]
  · intro hp h hh hb
    simp [AuthMiddleware.before_request, hp, hh, hb]

/-- An auth middleware whose only public prefix is `/health`. -/
def authMw : AuthMiddleware :=
  (AuthMiddleware.new "secret").with_public_paths ["/health"]

/-- A concrete request to a public path. -/
def reqHealth : Request :=
  { method := "GET", path := "/health/live", headers := [], body := none,
    path_params := [], query_params := [], remote_ip := none }

/-- A concrete non-public request carrying a Bearer authorization header. -/
def reqBearer : Request :=
  { method := "GET", path := "/admin",
    headers := [("authorization", "Bearer abc")], body := none,
    path_params := [], query_params := [], remote_ip := none }

/-- A concrete non-public request carrying a non-Bearer authorization header. -/
def reqBasic : Request :=
  { method := "GET", path := "/admin",
    headers := [("authorization", "Basic abc")], body := none,
    path_params := [], query_params := [], remote_ip := none }

/-- A concrete non-public request with no authorization header. -/
def reqNoAuth : Request :=
  { method := "GET", path := "/admin", headers := [], body := none,
    path_params := [], query_params := [], remote_ip := none }

/-- Witness for C4: all four branches on concrete requests. -/
theorem auth_before_request_spec_witness :
    authMw.before_request reqHealth = none ∧
    authMw.before_request reqBearer = none ∧
    authMw.before_request reqNoAuth
      = some (Response.unauthorized "Authentication required") ∧
    authMw.before_request reqBasic
      = some (Response.unauthorized "Authentication required") :=
  ⟨(auth_before_request_spec authMw reqHealth).1 (by decide),
   (auth_before_request_spec authMw reqBearer).2.1 (by decide) "Bearer abc"
     (by decide) (by decide),
   (auth_before_request_spec authMw reqNoAuth).2.2.1 (by decide) (by decide),
   (auth_before_request_spec authMw reqBasic).2.2.2 (by decide) "Basic abc"
     (by decide) (by decide)⟩

/-- Counterexample for C8: with credentials disabled (the default), a
response that already carries an `Access-Control-Allow-Credentials`
header keeps it through `after_request`; the header's presence is
therefore not equivalent to the flag being enabled. -/
theorem cors_credentials_iff_cex :
    CorsMiddleware.new.allow_credentials = false ∧
    hmGet (CorsMiddleware.new.after_request reqNoAuth
        (Response.new.header "Access-Control-Allow-Credentials" "true")).headers
      "Access-Control-Allow-Credentials" = some "true" :=
  ⟨rfl, by decide⟩

/-- Claim C8 (amended): `after_request` leaves status and body unchanged,
sets the three `Access-Control-Allow-*` headers to the configured lists
joined by ", ", adds `Access-Control-Allow-Credentials: true` when the
flag is enabled, leaves that header exactly as it was on the input when
the flag is disabled, and leaves every other header unchanged. -/
theorem cors_after_request_spec (m : CorsMiddleware) (req : Request)
    (resp : Response) :
    (m.after_request req resp).status = resp.status ∧
    (m.after_request req resp).body = resp.body ∧
    hmGet (m.after_request req resp).headers "Access-Control-Allow-Origin"
      = some (String.intercalate ", " m.allowed_origins) ∧
    hmGet (m.after_request req resp).headers "Access-Control-Allow-Methods"
      = some (String.intercalate ", " m.allowed_methods) ∧
    hmGet (m.after_request req resp).headers "Access-Control-Allow-Headers"
      = some (String.intercalate ", " m.allowed_headers) ∧
    (m.allow_credentials = true →
      hmGet (m.after_request req resp).headers "Access-Control-Allow-Credentials"
        = some "true") ∧
    (m.allow_credentials = false →
      hmGet (m.after_request req resp).headers "Access-Control-Allow-Credentials"
        = hmGet resp.headers "Access-Control-Allow-Credentials") ∧
    (∀ k, k ≠ "Access-Control-Allow-Origin" → k ≠ "Access-Control-Allow-Methods" →
      k ≠ "Access-Control-Allow-Headers" → k ≠ "Access-Control-Allow-Credentials" →
      hmGet (m.after_request req resp).headers k = hmGet resp.headers k) := by
  cases hcred : m.allow_credentials
  · refine ⟨?_, ?_, ?_, ?_, ?_, ?_, ?_, ?_⟩
    · simp [CorsMiddleware.after_request, Response.header, hcred]
    · simp [CorsMiddleware.after_request, Response.header, hcred]
    · simp only [CorsMiddleware.after_request, Response.header, hcred,
        Bool.false_eq_true, if_false]
      rw [hmGet_hmInsert_ne _ _ _ _ (by decide), hmGet_hmInsert_ne _ _ _ _ (by decide),
        hmGet_hmInsert_self]
    · simp only [CorsMiddleware.after_request, Response.header, hcred,
        Bool.false_eq_true, if_false]
      rw [hmGet_hmInsert_ne _ _ _ _ (by decide), hmGet_hmInsert_self]
    · simp only [CorsMiddleware.after_request, Response.header, hcred,
        Bool.false_eq_true, if_false]
      rw [hmGet_hmInsert_self]
    · intro habs
      simp at habs
    · intro _
      simp only [CorsMiddleware.after_request, Response.header, hcred,
        Bool.false_eq_true, if_false]
      rw [hmGet_hmInsert_ne _ _ _ _ (by decide), hmGet_hmInsert_ne _ _ _ _ (by decide),
        hmGet_hmInsert_ne _ _ _ _ (by decide)]
    · intro k h1 h2 h3 _
      simp only [CorsMiddleware.after_request, Response.header, hcred,
        Bool.false_eq_true, if_false]
      rw [hmGet_hmInsert_ne _ _ _ _ h3, hmGet_hmInsert_ne _ _ _ _ h2,
        hmGet_hmInsert_ne _ _ _ _ h1]
  · refine ⟨?_, ?_, ?_, ?_, ?_, ?_, ?_, ?_⟩
    · simp [CorsMiddleware.after_request, Response.header, hcred]
    · simp [CorsMiddleware.after_request, Response.header, hcred]
    · simp only [CorsMiddleware.after_request, Response.header, hcred, if_true]
      rw [hmGet_hmInsert_ne _ _ _ _ (by decide), hmGet_hmInsert_ne _ _ _ _ (by decide),
        hmGet_hmInsert_ne _ _ _ _ (by decide), hmGet_hmInsert_self]
    · simp only [CorsMiddleware.after_request, Response.header, hcred, if_true]
      rw [hmGet_hmInsert_ne _ _ _ _ (by decide), hmGet_hmInsert_ne _ _ _ _ (by decide),
        hmGet_hmInsert_self]
    · simp only [CorsMiddleware.after_request, Response.header, hcred, if_true]
      rw [hmGet_hmInsert_ne _ _ _ _ (by decide), hmGet_hmInsert_self]
    · intro _
      simp only [CorsMiddleware.after_request, Response.header, hcred, if_true]
      rw [hmGet_hmInsert_self]
    · intro habs
      simp at habs
    · intro k h1 h2 h3 h4
      simp only [CorsMiddleware.after_request, Response.header, hcred, if_true]
      rw [hmGet_hmInsert_ne _ _ _ _ h4, hmGet_hmInsert_ne _ _ _ _ h3,
        hmGet_hmInsert_ne _ _ _ _ h2, hmGet_hmInsert_ne _ _ _ _ h1]

/-- Witness for C8 (amended): concrete middleware with credentials
enabled gains the `true` header; a custom header on the input response
survives. -/
theorem cors_after_request_spec_witness :
    hmGet ((CorsMiddleware.new.with_allow_credentials true).after_request reqNoAuth
        (Response.new.header "x-trace" "1")).headers
      "Access-Control-Allow-Credentials" = some "true" ∧
    hmGet ((CorsMiddleware.new.with_allow_credentials true).after_request reqNoAuth
        (Response.new.header "x-trace" "1")).headers "x-trace"
      = hmGet (Response.new.header "x-trace" "1").headers "x-trace" :=
  ⟨(cors_after_request_spec (CorsMiddleware.new.with_allow_credentials true)
      reqNoAuth (Response.new.header "x-trace" "1")).2.2.2.2.2.1 rfl,
   (cors_after_request_spec (CorsMiddleware.new.with_allow_credentials true)
      reqNoAuth (Response.new.header "x-trace" "1")).2.2.2.2.2.2.2 "x-trace"
     (by decide) (by decide) (by decide) (by decide)⟩

/-- Claim C5: for a route with a supported method, the registered path is
the exact string concatenation `base_path ++ route.path` (no slash
normalization) when a base path is set, and `route.path` alone otherwise. -/
theorem register_routes_path_concat (r : Route) (b : String) (cfg : ServiceConfig)
    (hm : r.method ∈ (["GET", "POST", "PUT", "DELETE", "PATCH"] : List String)) :
    (BasicController.register_routes
        { routes := [r], base_path := some b } cfg).map RouteEntry.path
      = cfg.map RouteEntry.path ++ [b ++ r.path] ∧
    (BasicController.register_routes
        { routes := [r], base_path := none } cfg).map RouteEntry.path
      = cfg.map RouteEntry.path ++ [r.path] := by
  obtain ⟨mth, pth, hdl⟩ := r
  simp only [List.mem_cons, List.not_mem_nil, or_false] at hm
  constructor <;>
  · rcases hm with h | h | h | h | h <;> subst h <;>
      simp [BasicController.register_routes, registerRoute]

/-- A trivial handler used to build concrete routes. -/
def sampleHandler : HandlerFn := fun _ resp => resp

/-- Witness for C5: base `/api` and route `/users` register `/api/users`;
with no base path the registered path is `/users`. -/
theorem register_routes_path_concat_witness :
    (BasicController.register_routes
        { routes := [Route.get "/users" sampleHandler],
          base_path := some "/api" } []).map RouteEntry.path = ["/api/users"] ∧
    (BasicController.register_routes
        { routes := [Route.get "/users" sampleHandler],
          base_path := none } []).map RouteEntry.path = ["/users"] := by
  have h := register_routes_path_concat (Route.get "/users" sampleHandler)
    "/api" [] (by decide)
  exact ⟨h.1.trans (by decide), h.2.trans (by decide)⟩

/-- A route whose method string is not among the five supported literals
contributes nothing to the configuration (only a warning is logged). -/
theorem registerRoute_unsupported (bp : Option String) (cfg : ServiceConfig)
    (r : Route)
    (h : r.method ∉ (["GET", "POST", "PUT", "DELETE", "PATCH"] : List String)) :
    registerRoute bp cfg r = cfg := by
  have h1 : r.method ≠ "GET" := fun hh => h (by simp [hh])
  have h2 : r.method ≠ "POST" := fun hh => h (by simp [hh])
  have h3 : r.method ≠ "PUT" := fun hh => h (by simp [hh])
  have h4 : r.method ≠ "DELETE" := fun hh => h (by simp [hh])
  have h5 : r.method ≠ "PATCH" := fun hh => h (by simp [hh])
  simp [registerRoute, h1, h2, h3, h4, h5]

/-- Claim C6: a route with an unsupported method string (e.g. `TRACE`) is
skipped by `register_routes`: the resulting configuration is exactly the
one obtained without that route, so the remaining routes are unaffected
and registration never fails. -/
theorem register_routes_skips_unsupported (bp : Option String)
    (pre post : List Route) (r : Route) (cfg : ServiceConfig)
    (h : r.method ∉ (["GET", "POST", "PUT", "DELETE", "PATCH"] : List String)) :
    BasicController.register_routes
        { routes := pre ++ r :: post, base_path := bp } cfg =
      BasicController.register_routes
        { routes := pre ++ post, base_path := bp } cfg := by
  simp only [BasicController.register_routes, List.foldl_append, List.foldl_cons]
  rw [registerRoute_unsupported bp _ r h]

/-- A route with the unsupported method string `TRACE`. -/
def traceRoute : Route :=
  { method := "TRACE", path := "/t", handler := sampleHandler }

/-- Witness for C6: a `TRACE` route ahead of a `GET` route registers the
same configuration as the `GET` route alone. -/
theorem register_routes_skips_unsupported_witness :
    BasicController.register_routes
        { routes := [] ++ traceRoute :: [Route.get "/a" sampleHandler],
          base_path := none } [] =
      BasicController.register_routes
        { routes := [] ++ [Route.get "/a" sampleHandler],
          base_path := none } [] :=
  register_routes_skips_unsupported none [] [Route.get "/a" sampleHandler]
    traceRoute [] (by decide)

/-- Claim C2: `Application::middleware` stores the middleware, but the
per-request pipeline installed by `run` never consults the middleware
list: registering a middleware, or replacing the whole middleware list,
leaves the response served for every request unchanged, so no
`before_request` or `after_request` hook is ever interposed around
handler execution. -/
theorem middlewares_not_interposed (app : Application) (m : MiddlewareHooks)
    (ms : List MiddlewareHooks) (req : Request) :
    (app.middleware m).middlewares = app.middlewares ++ [m] ∧
    (app.middleware m).handleRequest req = app.handleRequest req ∧
    Application.handleRequest { app with middlewares := ms } req
      = app.handleRequest req :=
  ⟨rfl, rfl, rfl⟩

/-- Counterexample for C9: `dia_application_get` never decodes its path
argument, so a non-null path whose bytes are not valid UTF-8 still yields
0, not the -1 the claim requires for an invalidly encoded string
argument. -/
theorem ffi_get_invalid_encoding_cex :
    dia_application_get (some Application.new) CStrArg.invalid (fun _ => none) = 0 ∧
    dia_application_get (some Application.new) CStrArg.invalid (fun _ => none) ≠ -1 :=
  ⟨rfl, by decide⟩

/-- Claim C9 (amended): every status-returning boundary function returns
-1 on a null required pointer; `dia_application_host`, `dia_response_text`
and `dia_response_json` also return -1 when their string argument is not
valid UTF-8, and 0 otherwise; `dia_application_run` returns 0 exactly when
runtime creation and the server run both succeed; `dia_application_get`
only null-checks its pointers (it returns 0 even for an invalidly encoded
path); the free functions are no-ops on null. -/
theorem ffi_boundary_status_codes (a : Application) (r : Response) (s : String)
    (port status : Nat) (rtOk srvOk : Bool) (h : DiaHandlerFn) :
    (∀ c : CStrArg, dia_application_host none c = -1) ∧
    dia_application_host (some a) .null = -1 ∧
    dia_application_host (some a) .invalid = -1 ∧
    dia_application_host (some a) (.valid s) = 0 ∧
    dia_application_port none port = -1 ∧
    dia_application_port (some a) port = 0 ∧
    dia_application_run none rtOk srvOk = -1 ∧
    dia_application_run (some a) rtOk srvOk = (if rtOk && srvOk then 0 else -1) ∧
    (∀ c : CStrArg, dia_response_text none c = -1) ∧
    dia_response_text (some r) .null = -1 ∧
    dia_response_text (some r) .invalid = -1 ∧
    dia_response_text (some r) (.valid s) = 0 ∧
    (∀ c : CStrArg, dia_response_json none c = -1) ∧
    dia_response_json (some r) .null = -1 ∧
    dia_response_json (some r) .invalid = -1 ∧
    dia_response_json (some r) (.valid s) = 0 ∧
    dia_response_status none status = -1 ∧
    dia_response_status (some r) status = 0 ∧
    (∀ c : CStrArg, dia_application_get none c h = -1) ∧
    dia_application_get (some a) .null h = -1 ∧
    dia_application_get (some a) .invalid h = 0 ∧
    dia_application_get (some a) (.valid s) h = 0 ∧
    dia_application_free none = none ∧
    dia_response_free none = none := by
  refine ⟨fun c => by cases c <;> rfl, rfl, rfl, rfl, rfl, rfl, rfl, ?_,
    fun c => by cases c <;> rfl, rfl, rfl, rfl,
    fun c => by cases c <;> rfl, rfl, rfl, rfl, rfl, rfl,
    fun c => by cases c <;> rfl, rfl, rfl, rfl, rfl, rfl⟩
  cases rtOk <;> cases srvOk <;> rfl

end Dia
